import Mathlib

/-!
Shallow embedding of the metadata-driven REST dispatch engine and task manager of
the repository (files `vmware/vapi/rest/rules.py`, `vmware/vapi/rest/handler.py`,
`vmware/vapi/task/task_manager_impl.py`), together with theorems settling the
frozen claims about them.

Python dictionaries are embedded as association lists with unique keys kept in
insertion order; Python `None`-able values as `Option`; raised `KeyError` or
`ValueError` as `Except`/`Option` results; `datetime` instants as seconds
(`Nat`); werkzeug's case-insensitive header dictionary as an association list
looked up modulo ASCII lowercasing.
-/

namespace Vapi

/-! ### Python-style string primitives

These mirror the Python string methods the dispatch code uses. They are written
as structural recursion over the character list of the string so that every
definition evaluates inside the kernel (Lean's own `String.splitOn`,
`String.trim`, `String.replace` and `String.toLower` are defined by
well-founded recursion over byte positions and do not reduce definitionally).
All separators and replacement patterns used by the source are single
characters, so the primitives take a `Char` where Python takes a one-character
string. -/

/-- Inner loop of `pysplit`: accumulate the current chunk (reversed). -/
def pysplit_go (c : Char) : List Char → List Char → List String
  | [], acc => [String.mk acc.reverse]
  | x :: xs, acc =>
    if x = c then String.mk acc.reverse :: pysplit_go c xs []
    else pysplit_go c xs (x :: acc)

/-- Python `s.split(sep)` for a one-character separator: the empty string
splits to `[""]`, and n separators produce n+1 chunks. -/
def pysplit (c : Char) (s : String) : List String :=
  pysplit_go c s.data []

/-- Python `s.strip()`: remove leading and trailing whitespace. -/
def pytrim (s : String) : String :=
  String.mk (((s.data.dropWhile Char.isWhitespace).reverse.dropWhile
    Char.isWhitespace).reverse)

/-- Python `s.lower()` (ASCII, which covers every identifier and header the
dispatch code handles). -/
def pylower (s : String) : String :=
  String.mk (s.data.map Char.toLower)

/-- Python `s.replace(old, new)` for one-character patterns (the only shape the
source uses). -/
def pyreplace (old new : Char) (s : String) : String :=
  String.mk (s.data.map (fun ch => if ch = old then new else ch))

/-- Python `sep.join(chunks)`. -/
def pyjoin (sep : String) : List String → String
  | [] => ""
  | [x] => x
  | x :: xs => x ++ sep ++ pyjoin sep xs

/-! ### Python-style container helpers -/

/-- Dictionary lookup (`d.get(k)`): first binding of the key, `none` when absent. -/
def alookup {α : Type} (m : List (String × α)) (k : String) : Option α :=
  (m.find? (fun e => e.1 == k)).map (·.2)

/-- Case-insensitive lookup in a werkzeug `Headers` object (`headers.get(k)`,
and `k in headers` via `isSome`). -/
def header_get (headers : List (String × String)) (k : String) : Option String :=
  (headers.find? (fun e => pylower e.1 == pylower k)).map (·.2)

/-- Substring test: Python `s.find(pat) >= 0`. -/
def strContains (s pat : String) : Bool :=
  (List.range (s.data.length + 1)).any
    (fun i => List.isPrefixOf pat.data (s.data.drop i))

/-- Normalization applied to header values in `rules.py`:
`','.join([x.strip() for x in s.split(',')])`. -/
def commaJoinTrim (s : String) : String :=
  pyjoin "," ((pysplit (Char.ofNat 44) s).map pytrim)

/-- Python set `add`: append unless already present. -/
def set_add {α : Type} [BEq α] (l : List α) (x : α) : List α :=
  if l.contains x then l else l ++ [x]

/-- Python dict `setdefault`: keep the existing binding, else append the new one. -/
def dict_setdefault {α : Type} (m : List (String × α)) (k : String) (v : α) :
    List (String × α) :=
  if (alookup m k).isSome then m else m ++ [(k, v)]

/-! ### rules.py: data model -/

/-- HTTP methods that can reach the dispatch matching code: werkzeug only routes a
request to a generated rule whose declared method list contains the request's
method, and the default-mapping rules declare exactly these six. -/
inductive HttpMethod
  | GET | PATCH | DELETE | POST | PUT | HEAD
deriving DecidableEq, Repr

/-- Mapping from HTTP method to operation name (`http_method_map` in rules.py). -/
def http_method_map : HttpMethod → String
  | .GET => "list"
  | .PATCH => "update"
  | .DELETE => "delete"
  | .POST => "create"
  | .PUT => "set"
  | .HEAD => "get"

/-- Constants of `RestAnnotationType` in lib/constants.py. -/
inductive RestAnnotationType
  | NONE | REQUEST | VERB
deriving DecidableEq, Repr

/-- Modelled from the spec: the module `vmware.vapi.bindings.task_helper` is not
among the sources (only its caller is); the spec (§4.5 step 2, §6) says a
task-signalling query parameter "rewrites the operation id to its task-variant
name". The task-variant name is modelled as the id with a task suffix. -/
def get_task_operation_name (operation_id : String) : String :=
  operation_id ++ "$task"

/-- Modelled from the spec: inverse direction of the task-variant rewrite used
while generating routes; strips the task suffix when present so the dispatch
descriptor carries the plain operation id. -/
def get_non_task_operation_name (operation_id : String) : String :=
  if List.isSuffixOf ("$task").data operation_id.data then
    String.mk (operation_id.data.take (operation_id.data.length - 5))
  else operation_id

/-- Dispatch descriptor (`DispatchInfo` in rules.py). -/
structure DispatchInfo where
  mappingType : RestAnnotationType
  operationId : String
  params : List String
  headers : List String
  actionValue : Option String
deriving DecidableEq, Repr

/-! ### rules.py: DispatchInfo matching -/

/-- Body of `DispatchInfo._default_matching`: derive an operation id from the HTTP
method, the presence of identifier URI parameters and a `~action` query
parameter, and compare it with the descriptor's operation id. -/
def DispatchInfo.default_matching (self : DispatchInfo) (http_method : HttpMethod)
    (query_params uri_params : List (String × String)) : Bool × Int :=
  let operation_id := http_method_map http_method
  let operation_id := if uri_params ≠ [] && operation_id == "list" then "get" else operation_id
  let operation_id :=
    match alookup query_params "~action" with
    | some action =>
      if action ≠ "" then pyreplace (Char.ofNat 45) (Char.ofNat 95) action
      else operation_id
    | none => operation_id
  (operation_id == self.operationId, 1)

/-- Body of `DispatchInfo._request_matching`: a truthy fixed `action` query value
is compared against the declared action value, otherwise fall back to default
matching. -/
def DispatchInfo.request_matching (self : DispatchInfo) (http_method : HttpMethod)
    (query_params uri_params : List (String × String)) : Bool × Int :=
  match alookup query_params "action" with
  | some action_requested =>
    if action_requested ≠ "" then (some action_requested == self.actionValue, 1)
    else self.default_matching http_method query_params uri_params
  | none => self.default_matching http_method query_params uri_params

/-- One iteration of the query-predicate loop of `DispatchInfo._verb_matching`,
parameterized by the already-split predicate (`param.split('=')`). `Except.error`
carries the partial arity of an immediate no-match return. -/
def verb_param_step_parts (query_params : List (String × String))
    (param_split : List String) (arity : Int) : Except Int Int :=
  let key := pytrim (param_split.headD "")
  let present := (alookup query_params key).isSome
  let arity := if present then arity + 3 else arity - 1
  let mtch : Option Bool := if present then some true else none
  if param_split.length > 1 then
    let v := param_split.getD 1 ""
    let q_val := alookup query_params key
    if q_val == some v then Except.ok (arity + 4)
    else if mtch == some true && v ≠ "" then Except.error arity
    else Except.ok arity
  else Except.ok arity

/-- One iteration of the query-predicate loop of `DispatchInfo._verb_matching`,
on the raw declared predicate string. -/
def verb_param_step (query_params : List (String × String)) (param : String)
    (arity : Int) : Except Int Int :=
  verb_param_step_parts query_params (pysplit (Char.ofNat 61) param) arity

/-- Query-predicate loop of `DispatchInfo._verb_matching`. -/
def verb_params_loop (query_params : List (String × String)) :
    List String → Int → Except Int Int
  | [], arity => Except.ok arity
  | p :: ps, arity =>
    match verb_param_step query_params p arity with
    | Except.error a => Except.error a
    | Except.ok a => verb_params_loop query_params ps a

/-- One iteration of the header-predicate loop of `DispatchInfo._verb_matching`,
parameterized by the already-split predicate (`header.split(':')`). The header
key presence test uses the lowercased declared key, the value fetch uses the
stripped declared key, both against werkzeug's case-insensitive header map; a
falsy (absent or empty) header value is merged into the sentinel `""` exactly as
Python's truthiness tests do. -/
def verb_header_step_parts (headers : List (String × String))
    (header_split : List String) (arity : Int) : Except Int Int :=
  let key := header_split.headD ""
  -- the source lowercases the key before the membership test; lowercasing is
  -- idempotent, so it is absorbed by the case-insensitive lookup
  let present := (header_get headers key).isSome
  let arity := if present then arity + 1 else arity - 1
  let mtch : Option Bool := if present then some true else none
  if header_split.length > 1 then
    let declared_val := commaJoinTrim (header_split.getD 1 "")
    let header_val :=
      match header_get headers (pytrim key) with
      | none => ""
      | some s => if s == "" then "" else commaJoinTrim s
    if header_val ≠ "" && strContains header_val declared_val then Except.ok (arity + 2)
    else if mtch == some true && declared_val ≠ "" then Except.error arity
    else Except.ok arity
  else Except.ok arity

/-- One iteration of the header-predicate loop of `DispatchInfo._verb_matching`,
on the raw declared predicate string. -/
def verb_header_step (headers : List (String × String)) (header : String)
    (arity : Int) : Except Int Int :=
  verb_header_step_parts headers (pysplit (Char.ofNat 58) header) arity

/-- Header-predicate loop of `DispatchInfo._verb_matching`. -/
def verb_headers_loop (headers : List (String × String)) :
    List String → Int → Except Int Int
  | [], arity => Except.ok arity
  | h :: hs, arity =>
    match verb_header_step headers h arity with
    | Except.error a => Except.error a
    | Except.ok a => verb_headers_loop headers hs a

/-- Body of `DispatchInfo._verb_matching`: run the query-predicate loop from arity
0, then the header-predicate loop; an early no-match return surfaces the partial
arity with a `false` verdict. -/
def DispatchInfo.verb_matching (self : DispatchInfo)
    (query_params headers : List (String × String)) : Bool × Int :=
  match verb_params_loop query_params self.params 0 with
  | Except.error a => (false, a)
  | Except.ok a =>
    match verb_headers_loop headers self.headers a with
    | Except.error a => (false, a)
    | Except.ok a => (true, a)

/-- Body of `DispatchInfo.get_operation_id`: select the matcher by mapping type
and return the operation id on a match, the arity and the mapping type. -/
def DispatchInfo.get_operation_id (self : DispatchInfo) (http_method : HttpMethod)
    (query_params headers uri_params : List (String × String)) :
    Option String × Int × RestAnnotationType :=
  let res :=
    match self.mappingType with
    | .VERB => self.verb_matching query_params headers
    | .REQUEST => self.request_matching http_method query_params uri_params
    | .NONE => self.default_matching http_method query_params uri_params
  (if res.1 then some self.operationId else none, res.2, self.mappingType)

/-! ### handler.py: operation resolution and response status -/

/-- Error responses raised by `RESTHandler._find_matching_operation`
(werkzeug exceptions). -/
inductive RestError
  | notFound (msg : String)
  | badRequest (msg : String)
deriving DecidableEq, Repr

/-- HTTP status carried by a raised werkzeug exception. -/
def RestError.http_status : RestError → Nat
  | .notFound _ => 404
  | .badRequest _ => 400

/-- State threaded through the descriptor loop of
`RESTHandler._find_matching_operation`: current best operation id, arity and
mapping type. -/
structure SelState where
  op : Option String
  arity : Int
  mtype : RestAnnotationType
deriving DecidableEq, Repr

/-- Descriptor loop of `RESTHandler._find_matching_operation`: a descriptor that
matches with arity at least the current best replaces the current best. -/
def find_loop (http_method : HttpMethod)
    (query_params headers uri_params : List (String × String)) :
    List DispatchInfo → SelState → SelState
  | [], st => st
  | di :: rest, st =>
    let r := di.get_operation_id http_method query_params headers uri_params
    let st' := if r.1.isSome && st.arity ≤ r.2.1 then ⟨r.1, r.2.1, r.2.2⟩ else st
    find_loop http_method query_params headers uri_params rest st'

/-- Apostrophe character, used inside error message literals. -/
def apos : String := String.singleton (Char.ofNat 39)

/-- Error text of `RESTHandler._find_matching_operation` when no descriptor
matched and an `action` query parameter was supplied. -/
def msg_no_action (action : String) : String :=
  "No matching method available for the requested action " ++ apos ++ action ++
    apos ++ " on the URL"

/-- Error text of `RESTHandler._find_matching_operation` when no operation is
available for the URL and method. -/
def msg_no_match : String :=
  "No matching method available for the requested URL and HTTP method"

/-- Steps of `RESTHandler._find_matching_operation` up to and including the
task-variant rewrite: a single non-VERB descriptor is chosen without scoring,
otherwise the loop over all descriptors runs and a missing match raises
`NotFound`; then the `vmw-task` query parameter rewrites the id to its task
variant (a `vmw-task` value other than `true` raises `BadRequest`). -/
def resolve_operation_id (http_method : HttpMethod)
    (query_params headers uri_params : List (String × String))
    (dispatch_info_list : List DispatchInfo) :
    Except RestError (String × RestAnnotationType) :=
  let fast : Option (String × RestAnnotationType) :=
    match dispatch_info_list with
    | [di] => if di.mappingType ≠ RestAnnotationType.VERB
              then some (di.operationId, di.mappingType) else none
    | _ => none
  let resolved : Except RestError (String × RestAnnotationType) :=
    match fast with
    | some r => Except.ok r
    | none =>
      let st := find_loop http_method query_params headers uri_params
        dispatch_info_list ⟨none, 0, RestAnnotationType.NONE⟩
      match st.op with
      | some o => Except.ok (o, st.mtype)
      | none =>
        match alookup query_params "action" with
        | some action => Except.error (RestError.notFound (msg_no_action action))
        | none => Except.error (RestError.notFound msg_no_match)
  match resolved with
  | Except.error e => Except.error e
  | Except.ok (op, mtype) =>
    match alookup query_params "vmw-task" with
    | some is_task =>
      if pylower is_task == "true" then Except.ok (get_task_operation_name op, mtype)
      else Except.error (RestError.badRequest
        "Invalid value for \"vmw-task\" query param")
    | none => Except.ok (op, mtype)

/-- Body of `RESTHandler._find_matching_operation`. `service_ops` is the key set
of `metadata.service_map[service_id]`; a resolved operation id absent from the
metadata raises `werkzeug.exceptions.NotFound`. -/
def find_matching_operation (http_method : HttpMethod)
    (query_params headers uri_params : List (String × String))
    (service_ops : List String) (dispatch_info_list : List DispatchInfo) :
    Except RestError (String × RestAnnotationType) :=
  match resolve_operation_id http_method query_params headers uri_params
      dispatch_info_list with
  | Except.error e => Except.error e
  | Except.ok (op, mtype) =>
    if op ∈ service_ops then Except.ok (op, mtype)
    else Except.error (RestError.notFound msg_no_match)

/-- Success-path HTTP status computation of `RESTHandler._serialize_output`:
the operation's declared success response code when present, else 200; then a
DELETE request forces 204. -/
def serialize_success_status (http_method : HttpMethod)
    (success_response_code : Option Nat) : Nat :=
  let status :=
    match success_response_code with
    | some c => c
    | none => 200
  if http_method = HttpMethod.DELETE then 204 else status

/-! ### rules.py: route generation (MappingRule subclasses, RoutingRuleGenerator) -/

/-- Categories of `com.vmware.vapi.metadata.metamodel_client.Type`. -/
inductive TypeCategory
  | BUILTIN | USER_DEFINED | GENERIC
deriving DecidableEq, Repr

/-- Builtin types of the metamodel (the route generator only discriminates on
`ID`; the other constructors stand for the remaining builtin types). -/
inductive BuiltinType
  | ID | VOID | BOOLEAN | LONG | DOUBLE | STRING | BINARY | SECRET | DATE_TIME
  | URI | ANY_ERROR | DYNAMIC_STRUCTURE | OPAQUE
deriving DecidableEq, Repr

/-- Type of one declared parameter (`FieldInfo.type`). -/
structure FieldType where
  category : TypeCategory
  builtin_type : BuiltinType
deriving DecidableEq, Repr

/-- Body of `MappingRule._get_id_suffix`: the first parameter of builtin type ID
produces a werkzeug path segment, otherwise the suffix is empty. -/
def get_id_suffix : List (String × FieldType) → String
  | [] => ""
  | (param_name, t) :: rest =>
    if t.category = TypeCategory.BUILTIN then
      if t.builtin_type = BuiltinType.ID then "/<string:" ++ param_name ++ ">"
      else get_id_suffix rest
    else get_id_suffix rest

/-- Body of `MappingRule._generate_service_base_url`. -/
def generate_service_base_url (rest_root service_id : String) : String :=
  rest_root ++ pylower (pyreplace (Char.ofNat 46) (Char.ofNat 47)
    (pyreplace (Char.ofNat 95) (Char.ofNat 45) service_id))

/-- Metamodel elements of a custom `@RequestMapping` annotation used by
`CustomRequestMappingRule` (`method`, `value` and optional `params` elements). -/
structure RequestMappingMeta where
  method : String
  value : String
  params : Option (List String)
deriving DecidableEq, Repr

/-- Metamodel elements of one `@Verb` annotation used by `VerbMappingRule`
(`path` and optional `params`/`headers` elements). -/
structure VerbMeta where
  path : String
  params : Option (List String)
  headers : Option (List String)
deriving DecidableEq, Repr

/-- Operation summary held by `MetadataStore` (handler.py): parameter map plus
optional custom annotation metadata. -/
structure OperationSummary where
  param_info_map : List (String × FieldType)
  request_mapping_metadata : Option RequestMappingMeta
  verb_metadata : Option (List (String × VerbMeta))
deriving DecidableEq, Repr

/-- Test `OperationSummary.has_request_mapping_metadata` (handler.py):
the metadata is not `None`. -/
def OperationSummary.has_request_mapping_metadata (s : OperationSummary) : Bool :=
  s.request_mapping_metadata.isSome

/-- Test `OperationSummary.has_verb_metadata` (handler.py): the metadata is not
`None`. -/
def OperationSummary.has_verb_metadata (s : OperationSummary) : Bool :=
  s.verb_metadata.isSome

/-- Loop of `CustomRequestMappingRule.url` over the `params` annotation element
looking for a pair `action=value`. -/
def find_action_param : List String → Option String
  | [] => none
  | p :: ps =>
    match pysplit (Char.ofNat 61) p with
    | [k, v] => if k == "action" then some v else find_action_param ps
    | _ => find_action_param ps

/-- Branch of `CustomRequestMappingRule.url` taken when the URL template carries
no `?`: a truthy `params` element is scanned for an `action=` pair. -/
def action_from_params : Option (List String) → Option String
  | some (p :: ps) => find_action_param (p :: ps)
  | _ => none

/-- Body of `CustomRequestMappingRule.url`. A structurally malformed template
(multiple `?`, or a fixed query part that is not a single `key=value`) raises in
Python; that raise is embedded as `none`. -/
def custom_request_rule_url (rest_root operation_id : String)
    (s : OperationSummary) : Option (String × String × DispatchInfo) :=
  match s.request_mapping_metadata with
  | none => none
  | some rm =>
    let http_method := rm.method
    let custom_url := pyreplace (Char.ofNat 125) (Char.ofNat 62)
      (pyreplace (Char.ofNat 123) (Char.ofNat 60) rm.value)
    let custom_url := rest_root ++ String.mk (custom_url.data.drop 1)
    let parsed : Option (String × Option String) :=
      match pysplit (Char.ofNat 63) custom_url with
      | [u] => some (u, action_from_params rm.params)
      | [u, p] =>
        match pysplit (Char.ofNat 61) p with
        | [_, v] => some (u, some v)
        | _ => none
      | _ => none
    match parsed with
    | none => none
    | some (u, action_value) =>
      some (u, http_method,
        ⟨RestAnnotationType.REQUEST, get_non_task_operation_name operation_id,
          [], [], action_value⟩)

/-- Body of `VerbMappingRule.url`: the first entry of the verb metadata mapping
supplies the method, path template and dispatch predicates. An empty mapping
raises `StopIteration` in Python, embedded as `none`. -/
def verb_rule_url (rest_root operation_id : String) (s : OperationSummary) :
    Option (String × String × DispatchInfo) :=
  match s.verb_metadata with
  | some ((http_method, rmeta) :: _) =>
    let custom_url := pyreplace (Char.ofNat 125) (Char.ofNat 62)
      (pyreplace (Char.ofNat 123) (Char.ofNat 60) rmeta.path)
    let custom_url := rest_root ++ String.mk (custom_url.data.drop 1)
    some (custom_url, http_method,
      ⟨RestAnnotationType.VERB, get_non_task_operation_name operation_id,
        rmeta.params.getD [], rmeta.headers.getD [], none⟩)
  | _ => none

/-- Dispatch info built by the six default mapping rules: mapping type NONE, no
predicates. -/
def default_dispatch_info (operation_id : String) : DispatchInfo :=
  ⟨RestAnnotationType.NONE, get_non_task_operation_name operation_id, [], [], none⟩

/-- Body of `ListMappingRule.url`. -/
def list_rule_url (rest_root service_id operation_id : String) :
    String × String × DispatchInfo :=
  (generate_service_base_url rest_root service_id, "GET",
    default_dispatch_info operation_id)

/-- Body of `PostMappingRule.url`. -/
def post_rule_url (rest_root service_id operation_id : String) :
    String × String × DispatchInfo :=
  (generate_service_base_url rest_root service_id, "POST",
    default_dispatch_info operation_id)

/-- Body of `DeleteMappingRule.url`. -/
def delete_rule_url (rest_root service_id operation_id : String)
    (s : OperationSummary) : String × String × DispatchInfo :=
  let service_url := generate_service_base_url rest_root service_id
  let id_suffix := get_id_suffix s.param_info_map
  if id_suffix ≠ "" then (service_url ++ id_suffix, "DELETE", default_dispatch_info operation_id)
  else (service_url, "POST", default_dispatch_info operation_id)

/-- Body of `GetMappingRule.url`. -/
def get_rule_url (rest_root service_id operation_id : String)
    (s : OperationSummary) : String × String × DispatchInfo :=
  let service_url := generate_service_base_url rest_root service_id
  let id_suffix := get_id_suffix s.param_info_map
  if id_suffix ≠ "" then (service_url ++ id_suffix, "GET", default_dispatch_info operation_id)
  else (service_url, "POST", default_dispatch_info operation_id)

/-- Body of `PatchMappingRule.url`. -/
def patch_rule_url (rest_root service_id operation_id : String)
    (s : OperationSummary) : String × String × DispatchInfo :=
  let service_url := generate_service_base_url rest_root service_id
  let id_suffix := get_id_suffix s.param_info_map
  if id_suffix ≠ "" then (service_url ++ id_suffix, "PATCH", default_dispatch_info operation_id)
  else (service_url, "POST", default_dispatch_info operation_id)

/-- Body of `PutMappingRule.url`. -/
def put_rule_url (rest_root service_id operation_id : String)
    (s : OperationSummary) : String × String × DispatchInfo :=
  let service_url := generate_service_base_url rest_root service_id
  let id_suffix := get_id_suffix s.param_info_map
  if id_suffix ≠ "" then (service_url ++ id_suffix, "PUT", default_dispatch_info operation_id)
  else (service_url, "POST", default_dispatch_info operation_id)

/-- Operation ids claimed by the CRUD rules (`PostActionMappingRule._crud_ops`). -/
def crud_ops : List String := ["create", "get", "list", "update", "set", "delete"]

/-- Body of `PostActionMappingRule.url`. -/
def post_action_rule_url (rest_root service_id operation_id : String)
    (s : OperationSummary) : String × String × DispatchInfo :=
  let service_url := generate_service_base_url rest_root service_id
  let id_suffix := get_id_suffix s.param_info_map
  (service_url ++ id_suffix, "POST", default_dispatch_info operation_id)

/-- Body of `RoutingRuleGenerator.generate_mapping_rule`: try the mapping rules
in registration order (custom request mapping, verb, list, create, delete, get,
update, set, custom action), skipping the verb rule for the session service; the
first rule whose `match` accepts the operation produces the route. -/
def generate_mapping_rule (rest_root service_id operation_id : String)
    (operation_summary : OperationSummary) : Option (String × String × DispatchInfo) :=
  if operation_summary.has_request_mapping_metadata then
    custom_request_rule_url rest_root operation_id operation_summary
  else if service_id ≠ "com.vmware.cis.session" && operation_summary.has_verb_metadata then
    verb_rule_url rest_root operation_id operation_summary
  else if operation_id == "list" then
    some (list_rule_url rest_root service_id operation_id)
  else if operation_id == "create" then
    some (post_rule_url rest_root service_id operation_id)
  else if operation_id == "delete" then
    some (delete_rule_url rest_root service_id operation_id operation_summary)
  else if operation_id == "get" then
    some (get_rule_url rest_root service_id operation_id operation_summary)
  else if operation_id == "update" then
    some (patch_rule_url rest_root service_id operation_id operation_summary)
  else if operation_id == "set" then
    some (put_rule_url rest_root service_id operation_id operation_summary)
  else if operation_id ∉ crud_ops then
    some (post_action_rule_url rest_root service_id operation_id operation_summary)
  else none

/-- Existence of an identifier-typed parameter, the condition the spec's route
table is phrased in ("if an identifier parameter exists"). -/
def has_id_param (param_info_map : List (String × FieldType)) : Bool :=
  param_info_map.any
    (fun e => e.2.category == TypeCategory.BUILTIN && e.2.builtin_type == BuiltinType.ID)

/-! ### task_manager_impl.py: the task manager

Time instants are seconds (`datetime.utcnow()` differences only ever feed the
24-hour comparison). Python raising `KeyError` is embedded as
`Except.error PyError.keyError`. The iteration order of the Python *set*
`tasks_to_remove` is arbitrary, so the expiry sweep takes the order it walks the
set in as an explicit argument (a permutation of the set's elements). -/

/-- Uncaught Python exception surfaced by a task-manager operation. -/
inductive PyError
  | keyError
deriving DecidableEq, Repr

/-- Constant `TASK_EXPIRE_DURATION_SEC` of task_manager_impl.py. -/
def TASK_EXPIRE_DURATION_SEC : Nat := 24 * 60 * 60

/-- Embedded `com.vmware.vapi.std.LocalizableMessage` (only its shape matters). -/
structure LocalizableMessage where
  id : String
  default_message : String
  args : List String
deriving DecidableEq, Repr

/-- Fields of the task-info `StructValue` built and inspected by the task
manager. -/
structure TaskInfo where
  description : LocalizableMessage
  user : Option String
  service : String
  operation : String
  cancelable : Bool
  status : String
deriving DecidableEq, Repr

/-- Class `TaskSummary` of task_manager_impl.py (errors are kept as the resolved
type names). -/
structure TaskSummary where
  info : TaskInfo
  errors : List String
deriving DecidableEq, Repr

/-- Mutable state of `TaskManagerImpl`: the task map, the set of
(task id, terminal-transition time) entries scheduled for removal, and the set
of task ids marked for cancellation. -/
structure TaskManagerState where
  task_map : List (String × TaskSummary)
  tasks_to_remove : List (String × Nat)
  tasks_to_cancel : List String
deriving DecidableEq, Repr

/-- State of a freshly constructed `TaskManagerImpl`. -/
def initial_task_manager : TaskManagerState := ⟨[], [], []⟩

/-- Body of `TaskManagerImpl._create_task_id`. -/
def create_task_id (base_id service_id : String) : String :=
  base_id ++ ":" ++ service_id

/-- In-place attribute write `self.task_map[task_id].info = info` of `set_info`:
replace the info of the unique binding of the key. -/
def set_task_info : List (String × TaskSummary) → String → TaskInfo →
    List (String × TaskSummary)
  | [], _, _ => []
  | (k, s) :: rest, tid, info =>
    if k == tid then (k, { s with info := info }) :: rest
    else (k, s) :: set_task_info rest tid info

/-- Body of `TaskManagerImpl._remove_expired_task`: walk the removal set in the
given iteration order; stop at the first entry younger than 24 hours, remove the
others from both the removal set and the task map. -/
def remove_expired_task (curr_time : Nat) :
    List (String × Nat) → TaskManagerState → TaskManagerState
  | [], s => s
  | (task_id, t) :: rest, s =>
    if curr_time - t < TASK_EXPIRE_DURATION_SEC then s
    else
      remove_expired_task curr_time rest
        { s with
          tasks_to_remove := s.tasks_to_remove.erase (task_id, t)
          task_map := s.task_map.filter (fun e => e.1 != task_id) }

/-- Body of `TaskManagerImpl.create_task`: build the PENDING info, derive the
task id from the supplied or generated base id, insert it with `setdefault`
(an existing task with the same id is kept), then trigger the expiry sweep.
`ctx_user` is the identity the ambient security context resolves to and
`fresh_uuid` the generated unique base id. -/
def create_task (s : TaskManagerState) (now : Nat) (sweep_order : List (String × Nat))
    (ctx_user : Option String) (description : Option LocalizableMessage)
    (service_id operation_id : String) (cancelable : Bool)
    (error_types : List String) (fresh_uuid : String) (id_opt : Option String) :
    TaskManagerState × String :=
  let task_info : TaskInfo :=
    { description := description.getD ⟨"", "", []⟩
      user := ctx_user
      service := service_id
      operation := operation_id
      cancelable := cancelable
      status := "PENDING" }
  let base_id := id_opt.getD fresh_uuid
  let task_id := create_task_id base_id service_id
  let task_summary : TaskSummary := ⟨task_info, error_types⟩
  let s := { s with task_map := dict_setdefault s.task_map task_id task_summary }
  let s := remove_expired_task now sweep_order s
  (s, task_id)

/-- Body of `TaskManagerImpl.get_summary` (`self.task_map[task_id]`). -/
def get_summary (s : TaskManagerState) (task_id : String) :
    Except PyError TaskSummary :=
  match alookup s.task_map task_id with
  | none => Except.error PyError.keyError
  | some summary => Except.ok summary

/-- Body of `TaskManagerImpl.get_info` (`self.task_map[task_id].info`). -/
def get_info (s : TaskManagerState) (task_id : String) : Except PyError TaskInfo :=
  match alookup s.task_map task_id with
  | none => Except.error PyError.keyError
  | some summary => Except.ok summary.info

/-- Body of `TaskManagerImpl.set_info`: replace the task's info; a transition
into SUCCEEDED or FAILED schedules the task for removal at the current time and
clears its cancellation mark. -/
def set_info (s : TaskManagerState) (now : Nat) (task_id : String) (info : TaskInfo) :
    Except PyError TaskManagerState :=
  match alookup s.task_map task_id with
  | none => Except.error PyError.keyError
  | some _ =>
    let s := { s with task_map := set_task_info s.task_map task_id info }
    if info.status == "SUCCEEDED" || info.status == "FAILED" then
      Except.ok
        { s with
          tasks_to_remove := set_add s.tasks_to_remove (task_id, now)
          tasks_to_cancel := s.tasks_to_cancel.filter (fun x => x != task_id) }
    else Except.ok s

/-- Body of `TaskManagerImpl.remove_task` (`self.task_map.pop(task_id, None)`). -/
def remove_task (s : TaskManagerState) (task_id : String) : TaskManagerState :=
  { s with task_map := s.task_map.filter (fun e => e.1 != task_id) }

/-- Body of `TaskManagerImpl.get_infos`. -/
def get_infos (s : TaskManagerState) : List (String × TaskInfo) :=
  s.task_map.map (fun e => (e.1, e.2.info))

/-- Body of `TaskManagerImpl.mark_for_cancellation`: read the task's info
(raising `KeyError` for an unknown id) and add the id to the cancellation set
only when the info's cancelable field is True. -/
def mark_for_cancellation (s : TaskManagerState) (task_id : String) :
    Except PyError TaskManagerState :=
  match alookup s.task_map task_id with
  | none => Except.error PyError.keyError
  | some summary =>
    if summary.info.cancelable then
      Except.ok { s with tasks_to_cancel := set_add s.tasks_to_cancel task_id }
    else Except.ok s

/-- Body of `TaskManagerImpl.is_marked_for_cancellation`. -/
def is_marked_for_cancellation (s : TaskManagerState) (task_id : String) : Bool :=
  s.tasks_to_cancel.contains task_id

/-- Run of `mark_for_cancellation` as a state transformer: the state after the
call, unchanged when the call raised. -/
def mark_run (s : TaskManagerState) (task_id : String) : TaskManagerState :=
  match mark_for_cancellation s task_id with
  | Except.ok s' => s'
  | Except.error _ => s

/-- Run of `set_info` as a state transformer: the state after the call,
unchanged when the call raised. -/
def set_info_run (s : TaskManagerState) (now : Nat) (task_id : String)
    (info : TaskInfo) : TaskManagerState :=
  match set_info s now task_id info with
  | Except.ok s' => s'
  | Except.error _ => s

/-! ### Claim C7: success status code -/

/-- Claim C7, as stated, is false on the code: for a DELETE request whose
operation declares success status 202, the serializer returns 204, not the
declared code — the DELETE override is applied after (and on top of) the
declared success code. -/
theorem c7_counterexample :
    serialize_success_status HttpMethod.DELETE (some 202) = 204 ∧ (204 : Nat) ≠ 202 :=
  ⟨rfl, by decide⟩

/-- Claim C7 (amended): when the provider invocation succeeds, a DELETE request
always yields HTTP 204, overriding any declared success status code; for any
other method the status is the operation's declared success status code when one
is declared, otherwise 200. -/
theorem c7_success_status (m : HttpMethod) (code : Option Nat) :
    (m ≠ HttpMethod.DELETE → serialize_success_status m code = code.getD 200) ∧
    serialize_success_status HttpMethod.DELETE code = 204 := by
  constructor
  · intro hm
    cases code <;> simp [serialize_success_status, hm]
  · cases code <;> rfl

/-- Witness for c7_success_status at a concrete method and declared status. -/
theorem c7_success_status_witness :
    serialize_success_status HttpMethod.GET (some 201) = 201 ∧
    serialize_success_status HttpMethod.DELETE (some 201) = 204 :=
  ⟨(c7_success_status HttpMethod.GET (some 201)).1 (by decide),
   (c7_success_status HttpMethod.DELETE (some 201)).2⟩

/-! ### Claim C4: resolved id absent from the metadata -/

/-- Claim C4, as stated, is false on the code: with a single non-VERB dispatch
descriptor whose operation id `ghost` is absent from the service's metadata
operation map, the dispatcher raises `werkzeug.exceptions.NotFound`, a
client-facing HTTP 404, not a server-facing 500. -/
theorem c4_counterexample :
    find_matching_operation HttpMethod.GET [] [] [] ["get", "list"]
        [⟨RestAnnotationType.NONE, "ghost", [], [], none⟩] =
      Except.error (RestError.notFound msg_no_match) ∧
    (RestError.notFound msg_no_match).http_status = 404 ∧ (404 : Nat) ≠ 500 :=
  ⟨rfl, rfl, by decide⟩

/-- Claim C4 (amended): if the operation id resolved by the dispatch algorithm
(including any action override or task-variant rewrite) is absent from the
Metadata Store's operation map for the route's service, the dispatcher raises
`NotFound`, a client-facing error mapping to HTTP 404. -/
theorem c4_metadata_miss_raises_not_found (m : HttpMethod)
    (qp hs up : List (String × String)) (service_ops : List String)
    (l : List DispatchInfo) (op : String) (mt : RestAnnotationType)
    (hres : resolve_operation_id m qp hs up l = Except.ok (op, mt))
    (habs : op ∉ service_ops) :
    find_matching_operation m qp hs up service_ops l =
      Except.error (RestError.notFound msg_no_match) ∧
    (RestError.notFound msg_no_match).http_status = 404 := by
  refine ⟨?_, rfl⟩
  unfold find_matching_operation
  rw [hres]
  simp [habs]

/-- Witness for c4_metadata_miss_raises_not_found at a concrete route. -/
theorem c4_metadata_miss_witness :
    find_matching_operation HttpMethod.GET [] [] [] ["get", "list"]
        [⟨RestAnnotationType.REQUEST, "purge", [], [], some "purge"⟩] =
      Except.error (RestError.notFound msg_no_match) ∧
    (RestError.notFound msg_no_match).http_status = 404 :=
  c4_metadata_miss_raises_not_found HttpMethod.GET [] [] [] ["get", "list"]
    [⟨RestAnnotationType.REQUEST, "purge", [], [], some "purge"⟩]
    "purge" RestAnnotationType.REQUEST rfl (by decide)

/-! ### Claim C9: create_task with a colliding task id -/

/-- Claim C9: creating a task whose derived id already exists in the task map
leaves the existing task's summary unchanged (the newly built info is silently
discarded by `setdefault`), raises no error (`create_task` is total), and still
returns the colliding task id. The removal set is assumed empty so that the
opportunistic expiry sweep (which iterates it) is the identity. -/
theorem c9_colliding_create_keeps_existing (s : TaskManagerState) (now : Nat)
    (ctx_user : Option String) (description : Option LocalizableMessage)
    (service_id operation_id : String) (cancelable : Bool)
    (error_types : List String) (fresh_uuid base_id : String) (old : TaskSummary)
    (hmem : alookup s.task_map (create_task_id base_id service_id) = some old)
    (hrm : s.tasks_to_remove = []) :
    (create_task s now [] ctx_user description service_id operation_id cancelable
        error_types fresh_uuid (some base_id)).2 =
      create_task_id base_id service_id ∧
    (create_task s now [] ctx_user description service_id operation_id cancelable
        error_types fresh_uuid (some base_id)).1 = s ∧
    alookup (create_task s now [] ctx_user description service_id operation_id
        cancelable error_types fresh_uuid (some base_id)).1.task_map
      (create_task_id base_id service_id) = some old := by
  have hsd : dict_setdefault s.task_map (create_task_id base_id service_id)
      ⟨{ description := description.getD ⟨"", "", []⟩, user := ctx_user,
         service := service_id, operation := operation_id,
         cancelable := cancelable, status := "PENDING" }, error_types⟩ =
      s.task_map := by
    unfold dict_setdefault
    rw [hmem]
    rfl
  refine ⟨rfl, ?_, ?_⟩
  · simp only [create_task, Option.getD_some]
    rw [hsd]
    rfl
  · simp only [create_task, Option.getD_some]
    rw [hsd]
    exact hmem

/-- Witness for c9_colliding_create_keeps_existing at a concrete colliding
state. -/
theorem c9_colliding_create_witness :
    (create_task
        ⟨[("b:svc", ⟨⟨⟨"", "", []⟩, none, "svc", "get", true, "PENDING"⟩, []⟩)], [], []⟩
        5 [] none none "svc" "set" false [] "uuid-1" (some "b")).2 =
      create_task_id "b" "svc" ∧
    (create_task
        ⟨[("b:svc", ⟨⟨⟨"", "", []⟩, none, "svc", "get", true, "PENDING"⟩, []⟩)], [], []⟩
        5 [] none none "svc" "set" false [] "uuid-1" (some "b")).1 =
      ⟨[("b:svc", ⟨⟨⟨"", "", []⟩, none, "svc", "get", true, "PENDING"⟩, []⟩)], [], []⟩ ∧
    alookup (create_task
        ⟨[("b:svc", ⟨⟨⟨"", "", []⟩, none, "svc", "get", true, "PENDING"⟩, []⟩)], [], []⟩
        5 [] none none "svc" "set" false [] "uuid-1" (some "b")).1.task_map
      (create_task_id "b" "svc") =
      some ⟨⟨⟨"", "", []⟩, none, "svc", "get", true, "PENDING"⟩, []⟩ :=
  c9_colliding_create_keeps_existing _ 5 none none "svc" "set" false [] "uuid-1" "b"
    ⟨⟨⟨"", "", []⟩, none, "svc", "get", true, "PENDING"⟩, []⟩ rfl rfl

/-! ### Claim C10: operations on a task id absent from the map -/

/-- Claim C10, as stated, is false on the code: after creating a cancelable
task, marking it for cancellation and removing it, the id is absent from the
task map, yet `is_marked_for_cancellation` still returns true — `remove_task`
never clears the cancellation set. -/
theorem c10_counterexample :
    (let st := remove_task
        (mark_run
          (create_task initial_task_manager 0 [] none none "svc" "op" true []
            "u1" none).1
          "u1:svc")
        "u1:svc"
     alookup st.task_map "u1:svc" = none ∧
       is_marked_for_cancellation st "u1:svc" = true) :=
  ⟨rfl, rfl⟩

/-- Claim C10 (amended): for every task id absent from the task map,
`get_summary`, `get_info`, `set_info` and `mark_for_cancellation` raise an
uncaught KeyError, `remove_task` returns normally leaving the state unchanged,
and `is_marked_for_cancellation` returns the membership of the id in the
cancellation set — which can still be true for an absent id, because a
cancellation mark survives `remove_task`. -/
theorem c10_absent_id_behaviour (s : TaskManagerState) (task_id : String)
    (now : Nat) (info : TaskInfo)
    (h : alookup s.task_map task_id = none) :
    get_summary s task_id = Except.error PyError.keyError ∧
    get_info s task_id = Except.error PyError.keyError ∧
    set_info s now task_id info = Except.error PyError.keyError ∧
    mark_for_cancellation s task_id = Except.error PyError.keyError ∧
    remove_task s task_id = s ∧
    is_marked_for_cancellation s task_id = s.tasks_to_cancel.contains task_id := by
  have hfind : s.task_map.find? (fun e => e.1 == task_id) = none := by
    cases hf : s.task_map.find? (fun e => e.1 == task_id) with
    | none => rfl
    | some v => exact absurd h (by simp [alookup, hf])
  have hfil : s.task_map.filter (fun e => e.1 != task_id) = s.task_map := by
    apply List.filter_eq_self.mpr
    intro e he
    have hne := List.find?_eq_none.mp hfind e he
    simpa [bne] using hne
  refine ⟨?_, ?_, ?_, ?_, ?_, rfl⟩
  · unfold get_summary; rw [h]
  · unfold get_info; rw [h]
  · unfold set_info; rw [h]
  · unfold mark_for_cancellation; rw [h]
  · unfold remove_task
    rw [hfil]

/-- Witness for c10_absent_id_behaviour at a concrete state holding a stale
cancellation mark for the absent id. -/
theorem c10_absent_id_witness :
    get_summary ⟨[], [], ["gone:svc"]⟩ "gone:svc" = Except.error PyError.keyError ∧
    get_info ⟨[], [], ["gone:svc"]⟩ "gone:svc" = Except.error PyError.keyError ∧
    set_info ⟨[], [], ["gone:svc"]⟩ 7 "gone:svc" ⟨⟨"", "", []⟩, none, "svc", "op", false, "FAILED"⟩ =
      Except.error PyError.keyError ∧
    mark_for_cancellation ⟨[], [], ["gone:svc"]⟩ "gone:svc" = Except.error PyError.keyError ∧
    remove_task ⟨[], [], ["gone:svc"]⟩ "gone:svc" = ⟨[], [], ["gone:svc"]⟩ ∧
    is_marked_for_cancellation ⟨[], [], ["gone:svc"]⟩ "gone:svc" =
      List.contains ["gone:svc"] "gone:svc" :=
  c10_absent_id_behaviour ⟨[], [], ["gone:svc"]⟩ "gone:svc" 7
    ⟨⟨"", "", []⟩, none, "svc", "op", false, "FAILED"⟩ rfl

/-! ### Claim C3: 24-hour expiry of terminal tasks -/

/-- Terminal task info used in the expiry scenario. -/
def expiry_info (svc : String) : TaskInfo :=
  ⟨⟨"", "", []⟩, none, svc, "op", false, "SUCCEEDED"⟩

/-- Expiry scenario: two tasks created at time 0. -/
def expiry_s2 : TaskManagerState :=
  (create_task
    (create_task initial_task_manager 0 [] none none "svcA" "op" false [] "ua" none).1
    0 [] none none "svcB" "op" false [] "ub" none).1

/-- Expiry scenario: task `ua:svcA` transitions to SUCCEEDED at time 0, task
`ub:svcB` at time 120 (two minutes later). -/
def expiry_s4 : TaskManagerState :=
  set_info_run (set_info_run expiry_s2 0 "ua:svcA" (expiry_info "svcA"))
    120 "ub:svcB" (expiry_info "svcB")

/-- Expiry scenario at T + 23h59m: a task creation at time 86340 triggers the
sweep; `ua:svcA` is 23h59m old, under the 24-hour bound. -/
def expiry_s_2359 : TaskManagerState :=
  (create_task expiry_s4 86340 [("ua:svcA", 0), ("ub:svcB", 120)] none none
    "svcC" "op" false [] "uc" none).1

/-- Expiry scenario at T + 24h01m: a task creation at time 86460 triggers the
sweep, whose set iteration happens to visit the fresher terminal task
`ub:svcB` first. -/
def expiry_s_2401 : TaskManagerState :=
  (create_task expiry_s4 86460 [("ub:svcB", 120), ("ua:svcA", 0)] none none
    "svcC" "op" false [] "uc" none).1

/-- Claim C3 is the spec's intent, and the code has a bug: the expiry sweep of
`_remove_expired_task` iterates the Python *set* `tasks_to_remove` — whose
iteration order is arbitrary — and `break`s at the first entry younger than 24
hours. The theorem evaluates the embedded code on the claim's scenario: the
task whose info turned SUCCEEDED at time 0 is still returned by `get_infos`
at T + 23h59m (first half of the claim, which holds), but at T + 24h01m, with a
sweep iteration order that happens to visit a fresher terminal task first, the
expired task is still present in the task map, contradicting the claim's
"absent at T + 24h01m". Both sweep orders used are permutations of the removal
set, hence feasible iteration orders of the Python set. -/
theorem c3_expired_task_survives_sweep :
    expiry_s4.tasks_to_remove = [("ua:svcA", 0), ("ub:svcB", 120)] ∧
    List.Perm [("ua:svcA", 0), ("ub:svcB", 120)] expiry_s4.tasks_to_remove ∧
    List.Perm [("ub:svcB", 120), ("ua:svcA", 0)] expiry_s4.tasks_to_remove ∧
    (alookup (get_infos expiry_s_2359) "ua:svcA").isSome = true ∧
    86340 - 0 < TASK_EXPIRE_DURATION_SEC ∧
    TASK_EXPIRE_DURATION_SEC ≤ 86460 - 0 ∧
    (alookup expiry_s_2401.task_map "ua:svcA").isSome = true := by
  refine ⟨rfl, ?_, ?_, rfl, by decide, by decide, rfl⟩
  · decide
  · decide

/-! ### Claim C2: selection among multiple dispatch descriptors -/

/-- Claim C2, as stated, is false on the code: with two predicate-based
descriptors that both match the request with equal arity 0, the dispatcher
selects the one appearing later in generation order (the loop's comparison is
`curr_arity >= arity`, so a tie overwrites the earlier winner), not the earlier
one. -/
theorem c2_counterexample :
    (⟨RestAnnotationType.VERB, "a", [], [], none⟩ : DispatchInfo).get_operation_id
        HttpMethod.POST [] [] [] = (some "a", 0, RestAnnotationType.VERB) ∧
    (⟨RestAnnotationType.VERB, "b", [], [], none⟩ : DispatchInfo).get_operation_id
        HttpMethod.POST [] [] [] = (some "b", 0, RestAnnotationType.VERB) ∧
    find_matching_operation HttpMethod.POST [] [] [] ["a", "b"]
        [⟨RestAnnotationType.VERB, "a", [], [], none⟩,
         ⟨RestAnnotationType.VERB, "b", [], [], none⟩] =
      Except.ok ("b", RestAnnotationType.VERB) ∧
    "b" ≠ "a" :=
  ⟨rfl, rfl, rfl, by decide⟩

/-- Invariant of the descriptor loop of `_find_matching_operation`: the running
arity never decreases; every matching descriptor's arity is bounded by the final
arity; and the final state either is the initial state, with every matcher's
arity strictly below the initial arity, or originates from a descriptor in the
list after which every matcher scores strictly below the final arity. -/
theorem find_loop_spec (m : HttpMethod) (qp hs up : List (String × String)) :
    ∀ (l : List DispatchInfo) (st : SelState),
      st.arity ≤ (find_loop m qp hs up l st).arity ∧
      (∀ d ∈ l, ∀ o a t, d.get_operation_id m qp hs up = (some o, a, t) →
        a ≤ (find_loop m qp hs up l st).arity) ∧
      ((find_loop m qp hs up l st = st ∧
        ∀ d ∈ l, ∀ o a t, d.get_operation_id m qp hs up = (some o, a, t) →
          a < st.arity) ∨
       (∃ l₁ d l₂ o, l = l₁ ++ d :: l₂ ∧
        d.get_operation_id m qp hs up =
          (some o, (find_loop m qp hs up l st).arity, (find_loop m qp hs up l st).mtype) ∧
        (find_loop m qp hs up l st).op = some o ∧
        (∀ d' ∈ l₂, ∀ o' a' t', d'.get_operation_id m qp hs up = (some o', a', t') →
          a' < (find_loop m qp hs up l st).arity))) := by
  intro l
  induction l with
  | nil =>
    intro st
    refine ⟨le_refl _, ?_, Or.inl ⟨rfl, ?_⟩⟩ <;> simp [find_loop]
  | cons d rest ih =>
    intro st
    by_cases hc : (d.get_operation_id m qp hs up).1.isSome = true ∧
        st.arity ≤ (d.get_operation_id m qp hs up).2.1
    · obtain ⟨o, ho⟩ := Option.isSome_iff_exists.mp hc.1
      have hd : d.get_operation_id m qp hs up =
          (some o, (d.get_operation_id m qp hs up).2.1,
           (d.get_operation_id m qp hs up).2.2) := by
        rw [← ho]
      set st' : SelState := ⟨(d.get_operation_id m qp hs up).1,
        (d.get_operation_id m qp hs up).2.1, (d.get_operation_id m qp hs up).2.2⟩
        with hst'
      have hcond : ((d.get_operation_id m qp hs up).1.isSome &&
          decide (st.arity ≤ (d.get_operation_id m qp hs up).2.1)) = true := by
        simp [hc.1, hc.2]
      have hstep : find_loop m qp hs up (d :: rest) st =
          find_loop m qp hs up rest st' := by
        simp only [find_loop]
        rw [if_pos hcond]
      obtain ⟨ih1, ih2, ih3⟩ := ih st'
      rw [hstep]
      refine ⟨le_trans hc.2 ih1, ?_, ?_⟩
      · intro d' hd' o' a' t' hget
        rcases List.mem_cons.mp hd' with rfl | hmem
        · have ha' : a' = (d'.get_operation_id m qp hs up).2.1 := by rw [hget]
          rw [ha']
          exact ih1
        · exact ih2 d' hmem o' a' t' hget
      · rcases ih3 with ⟨heq, hall⟩ | ⟨l₁, d₀, l₂, o₀, hsplit, hget₀, hop₀, hafter⟩
        · refine Or.inr ⟨[], d, rest, o, rfl, ?_, ?_, ?_⟩
          · rw [heq]; exact hd
          · rw [heq]; exact ho
          · intro d' hd' o' a' t' hget
            have := hall d' hd' o' a' t' hget
            rw [heq]; exact this
        · exact Or.inr ⟨d :: l₁, d₀, l₂, o₀, by rw [hsplit]; rfl, hget₀, hop₀, hafter⟩
    · have hcond : ¬(((d.get_operation_id m qp hs up).1.isSome &&
          decide (st.arity ≤ (d.get_operation_id m qp hs up).2.1)) = true) := by
        simp only [Bool.and_eq_true, decide_eq_true_eq]
        exact hc
      have hstep : find_loop m qp hs up (d :: rest) st =
          find_loop m qp hs up rest st := by
        simp only [find_loop]
        rw [if_neg hcond]
      obtain ⟨ih1, ih2, ih3⟩ := ih st
      rw [hstep]
      have hdlt : ∀ o a t, d.get_operation_id m qp hs up = (some o, a, t) →
          a < st.arity := by
        intro o a t hget
        by_contra hlt
        refine hc ⟨by rw [hget]; rfl, ?_⟩
        have ha : a = (d.get_operation_id m qp hs up).2.1 := by rw [hget]
        omega
      refine ⟨ih1, ?_, ?_⟩
      · intro d' hd' o' a' t' hget
        rcases List.mem_cons.mp hd' with rfl | hmem
        · exact lt_of_lt_of_le (hdlt o' a' t' hget) ih1 |>.le
        · exact ih2 d' hmem o' a' t' hget
      · rcases ih3 with ⟨heq, hall⟩ | ⟨l₁, d₀, l₂, o₀, hsplit, hget₀, hop₀, hafter⟩
        · refine Or.inl ⟨heq, ?_⟩
          intro d' hd' o' a' t' hget
          rcases List.mem_cons.mp hd' with rfl | hmem
          · exact hdlt o' a' t' hget
          · exact hall d' hmem o' a' t' hget
        · exact Or.inr ⟨d :: l₁, d₀, l₂, o₀, by rw [hsplit]; rfl, hget₀, hop₀, hafter⟩

/-- Claim C2 (amended): among the descriptors of a resolved route that return
match=true, the dispatcher's loop selects one with the highest arity, and when
two matching descriptors compute equal (highest) arity the descriptor appearing
LATER in the generated (registration) order is selected; a selection only
happens at nonnegative arity, and when every matching descriptor scores a
negative arity none is selected. -/
theorem c2_highest_arity_later_tiebreak (m : HttpMethod)
    (qp hs up : List (String × String)) (l : List DispatchInfo) :
    (∀ o a t, find_loop m qp hs up l ⟨none, 0, RestAnnotationType.NONE⟩ = ⟨some o, a, t⟩ →
      0 ≤ a ∧
      (∀ d ∈ l, ∀ o' a' t', d.get_operation_id m qp hs up = (some o', a', t') →
        a' ≤ a) ∧
      (∃ l₁ d l₂, l = l₁ ++ d :: l₂ ∧
        d.get_operation_id m qp hs up = (some o, a, t) ∧
        (∀ d' ∈ l₂, ∀ o' a' t', d'.get_operation_id m qp hs up = (some o', a', t') →
          a' < a))) ∧
    (∀ a t, find_loop m qp hs up l ⟨none, 0, RestAnnotationType.NONE⟩ = ⟨none, a, t⟩ →
      ∀ d ∈ l, ∀ o' a' t', d.get_operation_id m qp hs up = (some o', a', t') →
        a' < 0) := by
  obtain ⟨h1, h2, h3⟩ := find_loop_spec m qp hs up l ⟨none, 0, RestAnnotationType.NONE⟩
  constructor
  · intro o a t hres
    refine ⟨by rw [hres] at h1; exact h1, ?_, ?_⟩
    · intro d hd o' a' t' hget
      have := h2 d hd o' a' t' hget
      rw [hres] at this; exact this
    · rcases h3 with ⟨heq, _⟩ | ⟨l₁, d₀, l₂, o₀, hsplit, hget₀, hop₀, hafter⟩
      · rw [heq] at hres
        exact absurd (congrArg SelState.op hres) (by simp)
      · rw [hres] at hget₀ hop₀ hafter
        have hoo : some o = some o₀ := hop₀
        obtain rfl : o = o₀ := Option.some.inj hoo
        refine ⟨l₁, d₀, l₂, hsplit, hget₀, ?_⟩
        intro d' hd' o' a' t' hget
        exact hafter d' hd' o' a' t' hget
  · intro a t hres d hd o' a' t' hget
    rcases h3 with ⟨heq, hall⟩ | ⟨_, _, _, _, _, _, hop₀, _⟩
    · have := hall d hd o' a' t' hget
      simpa using this
    · rw [hres] at hop₀
      exact absurd hop₀ (by simp)

/-- Witness for c2_highest_arity_later_tiebreak: at the concrete two-descriptor
route of the counterexample scenario, the selected descriptor "b" is produced by
a list decomposition whose suffix contains no matcher scoring the maximal
arity. -/
theorem c2_highest_arity_witness :
    ∃ l₁ d l₂,
      [(⟨RestAnnotationType.VERB, "a", [], [], none⟩ : DispatchInfo),
       ⟨RestAnnotationType.VERB, "b", [], [], none⟩] = l₁ ++ d :: l₂ ∧
      d.get_operation_id HttpMethod.POST [] [] [] =
        (some "b", 0, RestAnnotationType.VERB) ∧
      (∀ d' ∈ l₂, ∀ o' a' t',
        d'.get_operation_id HttpMethod.POST [] [] [] = (some o', a', t') →
          a' < 0) :=
  ((c2_highest_arity_later_tiebreak HttpMethod.POST [] [] []
      [⟨RestAnnotationType.VERB, "a", [], [], none⟩,
       ⟨RestAnnotationType.VERB, "b", [], [], none⟩]).1
    "b" 0 RestAnnotationType.VERB rfl).2.2

/-! ### Claim C6: default (predicate-less) matching -/

/-- Claim C6: for a dispatch descriptor with no declared predicates (mapping
type NONE), the derived operation id is a pure function of the request — GET
derives `list` unless a path identifier parameter is present, in which case
`get`; PATCH derives `update`, DELETE `delete`, POST `create`, PUT `set`, HEAD
`get`; a present (non-empty) `~action` query value, with `-` translated to `_`,
replaces the derived id — the descriptor matches exactly when the derived id
equals its operation id, and the arity is 1. -/
theorem c6_default_matching_table (di : DispatchInfo) (m : HttpMethod)
    (qp hs up : List (String × String))
    (hmt : di.mappingType = RestAnnotationType.NONE)
    (hact : alookup qp "~action" ≠ some "") :
    di.get_operation_id m qp hs up =
      (let derived :=
        match alookup qp "~action" with
        | some action => pyreplace (Char.ofNat 45) (Char.ofNat 95) action
        | none =>
          match m with
          | HttpMethod.GET => if up = [] then "list" else "get"
          | HttpMethod.PATCH => "update"
          | HttpMethod.DELETE => "delete"
          | HttpMethod.POST => "create"
          | HttpMethod.PUT => "set"
          | HttpMethod.HEAD => "get"
       ((if derived = di.operationId then some di.operationId else none), 1,
        RestAnnotationType.NONE)) := by
  obtain ⟨mt, oid, ps, hds, av⟩ := di
  simp only at hmt
  subst hmt
  cases hq : alookup qp "~action" with
  | none =>
    cases m <;> cases up <;>
      simp [DispatchInfo.get_operation_id, DispatchInfo.default_matching,
        http_method_map, hq, beq_iff_eq]
  | some a =>
    have ha : a ≠ "" := by
      intro h
      exact hact (by rw [hq, h])
    cases m <;> cases up <;>
      simp [DispatchInfo.get_operation_id, DispatchInfo.default_matching,
        http_method_map, hq, ha, beq_iff_eq]

/-- Witness for c6_default_matching_table: a GET on a URL carrying a path
identifier dispatches to the `get` descriptor with arity 1. -/
theorem c6_default_matching_witness :
    (⟨RestAnnotationType.NONE, "get", [], [], none⟩ : DispatchInfo).get_operation_id
        HttpMethod.GET [] [] [("id", "abc123")] =
      (some "get", 1, RestAnnotationType.NONE) := by
  have h := c6_default_matching_table
    ⟨RestAnnotationType.NONE, "get", [], [], none⟩
    HttpMethod.GET [] [] [("id", "abc123")] rfl (by decide)
  simpa using h

/-! ### Claim C1: default route table -/

/-- Helper: the werkzeug identifier path segment is never the empty string. -/
theorem id_segment_ne_empty (n : String) : "/<string:" ++ n ++ ">" ≠ "" := by
  intro h
  have hlen := congrArg String.length h
  rw [String.length_append, String.length_append] at hlen
  have h9 : ("/<string:").length = 9 := rfl
  have hgt : (">").length = 1 := rfl
  have h0 : ("" : String).length = 0 := rfl
  omega

/-- Helper: the id suffix built by `_get_id_suffix` is non-empty exactly when an
identifier-typed parameter exists. -/
theorem get_id_suffix_ne_iff (l : List (String × FieldType)) :
    (get_id_suffix l ≠ "") ↔ has_id_param l = true := by
  induction l with
  | nil => simp [get_id_suffix, has_id_param]
  | cons e rest ih =>
    obtain ⟨n, t⟩ := e
    by_cases hb : t.category = TypeCategory.BUILTIN
    · by_cases hid : t.builtin_type = BuiltinType.ID
      · simp [get_id_suffix, has_id_param, hb, hid, id_segment_ne_empty n]
      · simp [get_id_suffix, has_id_param, hb, hid, ih]
    · simp [get_id_suffix, has_id_param, hb, ih]

/-- Claim C1: for every operation named exactly `list`, `create`, `get`,
`update`, `set` or `delete` with no custom RequestMapping or Verb annotation,
the generated route is: list -> GET on the service base URL; create -> POST on
the base URL; delete -> DELETE on base/{id} when an identifier-typed parameter
exists, else POST on the base URL; get -> GET on base/{id} or POST; update ->
PATCH on base/{id} or POST; set -> PUT on base/{id} or POST; and any other
operation id maps to POST on the base URL with the /{id} suffix appended when an
identifier parameter exists (and an empty suffix otherwise). -/
theorem c1_default_route_table (rest_root service_id : String)
    (s : OperationSummary)
    (h1 : s.request_mapping_metadata = none) (h2 : s.verb_metadata = none) :
    ((generate_mapping_rule rest_root service_id "list" s).map
        (fun r => (r.1, r.2.1)) =
      some (generate_service_base_url rest_root service_id, "GET")) ∧
    ((generate_mapping_rule rest_root service_id "create" s).map
        (fun r => (r.1, r.2.1)) =
      some (generate_service_base_url rest_root service_id, "POST")) ∧
    (has_id_param s.param_info_map = true →
      (generate_mapping_rule rest_root service_id "delete" s).map
          (fun r => (r.1, r.2.1)) =
        some (generate_service_base_url rest_root service_id ++
          get_id_suffix s.param_info_map, "DELETE")) ∧
    (has_id_param s.param_info_map = false →
      (generate_mapping_rule rest_root service_id "delete" s).map
          (fun r => (r.1, r.2.1)) =
        some (generate_service_base_url rest_root service_id, "POST")) ∧
    (has_id_param s.param_info_map = true →
      (generate_mapping_rule rest_root service_id "get" s).map
          (fun r => (r.1, r.2.1)) =
        some (generate_service_base_url rest_root service_id ++
          get_id_suffix s.param_info_map, "GET")) ∧
    (has_id_param s.param_info_map = false →
      (generate_mapping_rule rest_root service_id "get" s).map
          (fun r => (r.1, r.2.1)) =
        some (generate_service_base_url rest_root service_id, "POST")) ∧
    (has_id_param s.param_info_map = true →
      (generate_mapping_rule rest_root service_id "update" s).map
          (fun r => (r.1, r.2.1)) =
        some (generate_service_base_url rest_root service_id ++
          get_id_suffix s.param_info_map, "PATCH")) ∧
    (has_id_param s.param_info_map = false →
      (generate_mapping_rule rest_root service_id "update" s).map
          (fun r => (r.1, r.2.1)) =
        some (generate_service_base_url rest_root service_id, "POST")) ∧
    (has_id_param s.param_info_map = true →
      (generate_mapping_rule rest_root service_id "set" s).map
          (fun r => (r.1, r.2.1)) =
        some (generate_service_base_url rest_root service_id ++
          get_id_suffix s.param_info_map, "PUT")) ∧
    (has_id_param s.param_info_map = false →
      (generate_mapping_rule rest_root service_id "set" s).map
          (fun r => (r.1, r.2.1)) =
        some (generate_service_base_url rest_root service_id, "POST")) ∧
    (∀ op, op ∉ crud_ops →
      (generate_mapping_rule rest_root service_id op s).map
          (fun r => (r.1, r.2.1)) =
        some (generate_service_base_url rest_root service_id ++
          get_id_suffix s.param_info_map, "POST")) ∧
    (has_id_param s.param_info_map = false →
      get_id_suffix s.param_info_map = "") := by
  have hrm : s.has_request_mapping_metadata = false := by
    simp [OperationSummary.has_request_mapping_metadata, h1]
  have hvb : s.has_verb_metadata = false := by
    simp [OperationSummary.has_verb_metadata, h2]
  have hchain : ∀ op, generate_mapping_rule rest_root service_id op s =
      (if op == "list" then some (list_rule_url rest_root service_id op)
       else if op == "create" then some (post_rule_url rest_root service_id op)
       else if op == "delete" then some (delete_rule_url rest_root service_id op s)
       else if op == "get" then some (get_rule_url rest_root service_id op s)
       else if op == "update" then some (patch_rule_url rest_root service_id op s)
       else if op == "set" then some (put_rule_url rest_root service_id op s)
       else if op ∉ crud_ops then
         some (post_action_rule_url rest_root service_id op s)
       else none) := by
    intro op
    unfold generate_mapping_rule
    rw [hrm, hvb]
    simp
  have hsuf0 : has_id_param s.param_info_map = false →
      get_id_suffix s.param_info_map = "" := by
    intro h
    by_contra hne
    rw [(get_id_suffix_ne_iff _).mp hne] at h
    exact Bool.true_eq_false.mp h
  refine ⟨?_, ?_, ?_, ?_, ?_, ?_, ?_, ?_, ?_, ?_, ?_, hsuf0⟩
  · rw [hchain "list"]; rfl
  · rw [hchain "create"]; rfl
  · intro hid
    rw [hchain "delete"]
    show (some (delete_rule_url rest_root service_id "delete" s)).map _ = _
    simp only [delete_rule_url]
    rw [if_pos ((get_id_suffix_ne_iff _).mpr hid)]
    rfl
  · intro hid
    rw [hchain "delete"]
    show (some (delete_rule_url rest_root service_id "delete" s)).map _ = _
    simp only [delete_rule_url]
    rw [if_neg (by simp [hsuf0 hid])]
    rfl
  · intro hid
    rw [hchain "get"]
    show (some (get_rule_url rest_root service_id "get" s)).map _ = _
    simp only [get_rule_url]
    rw [if_pos ((get_id_suffix_ne_iff _).mpr hid)]
    rfl
  · intro hid
    rw [hchain "get"]
    show (some (get_rule_url rest_root service_id "get" s)).map _ = _
    simp only [get_rule_url]
    rw [if_neg (by simp [hsuf0 hid])]
    rfl
  · intro hid
    rw [hchain "update"]
    show (some (patch_rule_url rest_root service_id "update" s)).map _ = _
    simp only [patch_rule_url]
    rw [if_pos ((get_id_suffix_ne_iff _).mpr hid)]
    rfl
  · intro hid
    rw [hchain "update"]
    show (some (patch_rule_url rest_root service_id "update" s)).map _ = _
    simp only [patch_rule_url]
    rw [if_neg (by simp [hsuf0 hid])]
    rfl
  · intro hid
    rw [hchain "set"]
    show (some (put_rule_url rest_root service_id "set" s)).map _ = _
    simp only [put_rule_url]
    rw [if_pos ((get_id_suffix_ne_iff _).mpr hid)]
    rfl
  · intro hid
    rw [hchain "set"]
    show (some (put_rule_url rest_root service_id "set" s)).map _ = _
    simp only [put_rule_url]
    rw [if_neg (by simp [hsuf0 hid])]
    rfl
  · intro op hop
    have hne : ∀ c : String, c ∈ crud_ops → (op == c) = false :=
      fun c hc => beq_eq_false_iff_ne.mpr (fun h => hop (h ▸ hc))
    rw [hchain op]
    rw [if_neg (by simp [hne "list" (by decide)]),
        if_neg (by simp [hne "create" (by decide)]),
        if_neg (by simp [hne "delete" (by decide)]),
        if_neg (by simp [hne "get" (by decide)]),
        if_neg (by simp [hne "update" (by decide)]),
        if_neg (by simp [hne "set" (by decide)]),
        if_pos hop]
    rfl

/-- Witness for c1_default_route_table at concrete operations of a service
`com.vmware.widgets`, with and without an identifier parameter. -/
theorem c1_default_route_table_witness :
    ((generate_mapping_rule "/rest/" "com.vmware.widgets" "list"
        ⟨[], none, none⟩).map (fun r => (r.1, r.2.1)) =
      some (generate_service_base_url "/rest/" "com.vmware.widgets", "GET")) ∧
    ((generate_mapping_rule "/rest/" "com.vmware.widgets" "get"
        ⟨[("vm", ⟨TypeCategory.BUILTIN, BuiltinType.ID⟩)], none, none⟩).map
        (fun r => (r.1, r.2.1)) =
      some (generate_service_base_url "/rest/" "com.vmware.widgets" ++
        get_id_suffix [("vm", ⟨TypeCategory.BUILTIN, BuiltinType.ID⟩)], "GET")) ∧
    ((generate_mapping_rule "/rest/" "com.vmware.widgets" "get"
        ⟨[], none, none⟩).map (fun r => (r.1, r.2.1)) =
      some (generate_service_base_url "/rest/" "com.vmware.widgets", "POST")) ∧
    ((generate_mapping_rule "/rest/" "com.vmware.widgets" "start"
        ⟨[("vm", ⟨TypeCategory.BUILTIN, BuiltinType.ID⟩)], none, none⟩).map
        (fun r => (r.1, r.2.1)) =
      some (generate_service_base_url "/rest/" "com.vmware.widgets" ++
        get_id_suffix [("vm", ⟨TypeCategory.BUILTIN, BuiltinType.ID⟩)], "POST")) :=
  ⟨(c1_default_route_table "/rest/" "com.vmware.widgets" ⟨[], none, none⟩ rfl rfl).1,
   (c1_default_route_table "/rest/" "com.vmware.widgets"
      ⟨[("vm", ⟨TypeCategory.BUILTIN, BuiltinType.ID⟩)], none, none⟩ rfl
      rfl).2.2.2.2.1 rfl,
   (c1_default_route_table "/rest/" "com.vmware.widgets" ⟨[], none, none⟩ rfl
      rfl).2.2.2.2.2.1 rfl,
   (c1_default_route_table "/rest/" "com.vmware.widgets"
      ⟨[("vm", ⟨TypeCategory.BUILTIN, BuiltinType.ID⟩)], none, none⟩ rfl
      rfl).2.2.2.2.2.2.2.2.2.2.1 "start" (by decide)⟩

/-! ### Claim C8: tasks created non-cancelable are never marked -/

/-- Helper: the expiry sweep never touches the cancellation set. -/
theorem remove_expired_cancel_eq (now : Nat) (ord : List (String × Nat)) :
    ∀ s : TaskManagerState,
      (remove_expired_task now ord s).tasks_to_cancel = s.tasks_to_cancel := by
  induction ord with
  | nil => intro s; rfl
  | cons p rest ih =>
    intro s
    obtain ⟨tid, t⟩ := p
    simp only [remove_expired_task]
    split
    · rfl
    · rw [ih]

/-- Helper: the expiry sweep only ever removes task-map entries. -/
theorem remove_expired_map_subset (now : Nat) (ord : List (String × Nat)) :
    ∀ s : TaskManagerState,
      ∀ e ∈ (remove_expired_task now ord s).task_map, e ∈ s.task_map := by
  induction ord with
  | nil => intro s e he; exact he
  | cons p rest ih =>
    intro s e he
    obtain ⟨tid, t⟩ := p
    simp only [remove_expired_task] at he
    split at he
    · exact he
    · exact List.mem_of_mem_filter (ih _ e he)

/-- Helper: when every binding of the id in the task map is non-cancelable,
`mark_for_cancellation` leaves the state unchanged. -/
theorem mark_run_of_not_cancelable (s : TaskManagerState) (tid : String)
    (hmap : ∀ e ∈ s.task_map, e.1 = tid → e.2.info.cancelable = false) :
    mark_run s tid = s := by
  unfold mark_run mark_for_cancellation
  cases hf : alookup s.task_map tid with
  | none => rfl
  | some summary =>
    obtain ⟨e, hfe, he2⟩ : ∃ e, s.task_map.find? (fun e => e.1 == tid) = some e ∧
        e.2 = summary := by
      unfold alookup at hf
      cases hff : s.task_map.find? (fun e => e.1 == tid) with
      | none => rw [hff] at hf; exact absurd hf (by simp)
      | some e =>
        rw [hff] at hf
        exact ⟨e, rfl, by simpa using hf⟩
    have hmem : e ∈ s.task_map := List.mem_of_find?_eq_some hfe
    have hkey : e.1 = tid := by
      have := List.find?_some hfe
      simpa using this
    have hcanc : summary.info.cancelable = false := by
      rw [← he2]
      exact hmap e hmem hkey
    simp [hcanc]

/-- Helper: every entry of a `setdefault` result is an old entry or the new
binding. -/
theorem mem_dict_setdefault {α : Type} (m : List (String × α)) (k : String)
    (v : α) : ∀ e ∈ dict_setdefault m k v, e ∈ m ∨ e = (k, v) := by
  intro e he
  unfold dict_setdefault at he
  split at he
  · exact Or.inl he
  · rcases List.mem_append.mp he with h | h
    · exact Or.inl h
    · exact Or.inr (List.mem_singleton.mp h)

/-- Claim C8: a task created through `create_task` with `cancelable = False`
(under a fresh id that is not already bound in the task map nor stale in the
cancellation set) is never reported as marked for cancellation, however many
`mark_for_cancellation` calls are made on its id. -/
theorem c8_noncancelable_never_marked (s : TaskManagerState) (now : Nat)
    (sweep_order : List (String × Nat)) (ctx_user : Option String)
    (description : Option LocalizableMessage) (service_id operation_id : String)
    (error_types : List String) (fresh_uuid : String) (id_opt : Option String)
    (n : Nat)
    (h1 : ∀ e ∈ s.task_map,
      e.1 ≠ create_task_id (id_opt.getD fresh_uuid) service_id)
    (h2 : s.tasks_to_cancel.contains
      (create_task_id (id_opt.getD fresh_uuid) service_id) = false) :
    is_marked_for_cancellation
      ((fun st => mark_run st
          (create_task_id (id_opt.getD fresh_uuid) service_id))^[n]
        (create_task s now sweep_order ctx_user description service_id
          operation_id false error_types fresh_uuid id_opt).1)
      (create_task_id (id_opt.getD fresh_uuid) service_id) = false := by
  have hst : (create_task s now sweep_order ctx_user description service_id
      operation_id false error_types fresh_uuid id_opt).1 =
    remove_expired_task now sweep_order
      ⟨dict_setdefault s.task_map
        (create_task_id (id_opt.getD fresh_uuid) service_id)
        ⟨⟨description.getD ⟨"", "", []⟩, ctx_user, service_id, operation_id,
          false, "PENDING"⟩, error_types⟩,
       s.tasks_to_remove, s.tasks_to_cancel⟩ := rfl
  rw [hst]
  have hmap0 : ∀ e ∈ (remove_expired_task now sweep_order
      (⟨dict_setdefault s.task_map
        (create_task_id (id_opt.getD fresh_uuid) service_id)
        ⟨⟨description.getD ⟨"", "", []⟩, ctx_user, service_id, operation_id,
          false, "PENDING"⟩, error_types⟩,
        s.tasks_to_remove, s.tasks_to_cancel⟩ : TaskManagerState)).task_map,
      e.1 = create_task_id (id_opt.getD fresh_uuid) service_id →
        e.2.info.cancelable = false := by
    intro e he hkey
    have he' := remove_expired_map_subset now sweep_order _ e he
    rcases mem_dict_setdefault _ _ _ e he' with h | h
    · exact absurd hkey (h1 e h)
    · rw [h]
  rw [Function.iterate_fixed (mark_run_of_not_cancelable _ _ hmap0)]
  unfold is_marked_for_cancellation
  rw [remove_expired_cancel_eq]
  exact h2

/-- Witness for c8_noncancelable_never_marked: two marking attempts on a
freshly created non-cancelable task leave it unmarked. -/
theorem c8_noncancelable_witness :
    is_marked_for_cancellation
      ((fun st => mark_run st
          (create_task_id ((none : Option String).getD "u7") "svc"))^[2]
        (create_task initial_task_manager 0 [] none none "svc" "op" false []
          "u7" none).1)
      (create_task_id ((none : Option String).getD "u7") "svc") = false :=
  c8_noncancelable_never_marked initial_task_manager 0 [] none none "svc" "op"
    [] "u7" none 2
    (by intro e he; exact absurd he (List.not_mem_nil e)) rfl

/-! ### Claim C5: predicate-based (verb) arity weights -/

/-- Claim C5, as stated, is false on the code: a declared header predicate
`h:json` against a request whose `h` header carries the different value
`xjsonx` does not produce a no-match — the code compares header values by
substring containment (`find(...) >= 0` after trimming and comma-joining), so
the descriptor matches with arity 3 (+1 key presence, +2 value containment). -/
theorem c5_counterexample :
    (⟨RestAnnotationType.VERB, "op", [], ["h:json"], none⟩ : DispatchInfo).verb_matching
        [] [("h", "xjsonx")] = (true, 3) ∧
    header_get [("h", "xjsonx")] "h" = some "xjsonx" ∧
    commaJoinTrim "xjsonx" ≠ commaJoinTrim "json" :=
  ⟨rfl, rfl, by decide⟩

/-- Claim C5 (amended): in predicate-based matching, each declared query key
present in the request's query parameters adds 3 to the arity and each absent
declared key subtracts 1; when the predicate carries a required (non-empty)
value, an exact value match adds 4 on top of the presence bonus, while a present
key with a different value aborts with a no-match verdict carrying the partial
arity; declared header predicates add 1 when present and subtract 1 when
absent, and the header VALUE comparison — performed after trimming and
comma-joining both sides — is substring containment, not equality: a normalized
header value containing the normalized declared value adds 2, and the immediate
no-match abort happens only when the declared value is non-empty and the
normalized header value is falsy or does not contain it. -/
theorem c5_verb_predicate_weights :
    (∀ (qp : List (String × String)) (p : String) (a : Int),
      verb_param_step qp p a =
        verb_param_step_parts qp (pysplit (Char.ofNat 61) p) a) ∧
    (∀ (hs : List (String × String)) (h : String) (a : Int),
      verb_header_step hs h a =
        verb_header_step_parts hs (pysplit (Char.ofNat 58) h) a) ∧
    (∀ (qp : List (String × String)) (k : String) (a : Int),
      ((alookup qp (pytrim k)).isSome = true →
        verb_param_step_parts qp [k] a = Except.ok (a + 3)) ∧
      (alookup qp (pytrim k) = none →
        verb_param_step_parts qp [k] a = Except.ok (a - 1))) ∧
    (∀ (qp : List (String × String)) (k v : String) (a : Int), v ≠ "" →
      (alookup qp (pytrim k) = some v →
        verb_param_step_parts qp [k, v] a = Except.ok (a + 3 + 4)) ∧
      (∀ w, alookup qp (pytrim k) = some w → w ≠ v →
        verb_param_step_parts qp [k, v] a = Except.error (a + 3)) ∧
      (alookup qp (pytrim k) = none →
        verb_param_step_parts qp [k, v] a = Except.ok (a - 1))) ∧
    (∀ (hs : List (String × String)) (k : String) (a : Int),
      ((header_get hs k).isSome = true →
        verb_header_step_parts hs [k] a = Except.ok (a + 1)) ∧
      (header_get hs k = none →
        verb_header_step_parts hs [k] a = Except.ok (a - 1))) ∧
    (∀ (hs : List (String × String)) (k v : String) (a : Int) (hv : String),
      pytrim k = k → header_get hs k = some hv →
      (commaJoinTrim hv ≠ "" →
        strContains (commaJoinTrim hv) (commaJoinTrim v) = true →
        verb_header_step_parts hs [k, v] a = Except.ok (a + 1 + 2)) ∧
      (commaJoinTrim v ≠ "" →
        (commaJoinTrim hv = "" ∨
          strContains (commaJoinTrim hv) (commaJoinTrim v) = false) →
        verb_header_step_parts hs [k, v] a = Except.error (a + 1))) ∧
    (∀ (hs : List (String × String)) (k v : String) (a : Int),
      pytrim k = k → header_get hs k = none →
      verb_header_step_parts hs [k, v] a = Except.ok (a - 1)) := by
  refine ⟨fun _ _ _ => rfl, fun _ _ _ => rfl, ?_, ?_, ?_, ?_, ?_⟩
  · intro qp k a
    constructor
    · intro h
      simp [verb_param_step_parts, h]
    · intro h
      simp [verb_param_step_parts, h]
  · intro qp k v a hv
    refine ⟨?_, ?_, ?_⟩
    · intro h
      simp [verb_param_step_parts, h]
    · intro w hw hne
      have : ¬(alookup qp (pytrim k) == some v) = true := by
        simp [hw, hne]
      simp [verb_param_step_parts, hw, hne, hv]
    · intro h
      simp [verb_param_step_parts, h, hv]
  · intro hs k a
    constructor
    · intro h
      simp [verb_header_step_parts, h]
    · intro h
      simp [verb_header_step_parts, h]
  · intro hs k v a hv hk hpres
    have hcjt : commaJoinTrim "" = "" := rfl
    constructor
    · intro hne hcont
      have hv0 : hv ≠ "" := by
        intro h
        rw [h, hcjt] at hne
        exact hne rfl
      simp [verb_header_step_parts, hk, hpres, hv0, hne, hcont]
    · intro hdv hdisj
      rcases hdisj with hdisj | hdisj
      · by_cases hv0 : hv = ""
        · simp [verb_header_step_parts, hk, hpres, hv0, hdv]
        · simp [verb_header_step_parts, hk, hpres, hv0, hdisj, hdv]
      · by_cases hv0 : hv = ""
        · simp [verb_header_step_parts, hk, hpres, hv0, hdv]
        · simp [verb_header_step_parts, hk, hpres, hv0, hdisj, hdv]
  · intro hs k v a hk habs
    simp [verb_header_step_parts, hk, habs]

/-- Witness for c5_verb_predicate_weights at concrete predicates and
requests. -/
theorem c5_verb_predicate_witness :
    verb_param_step_parts [("q", "x")] ["q"] 0 = Except.ok 3 ∧
    verb_param_step_parts [("q", "x")] ["q", "x"] 0 = Except.ok 7 ∧
    verb_param_step_parts [("q", "y")] ["q", "x"] 0 = Except.error 3 ∧
    verb_param_step_parts [] ["q", "x"] 0 = Except.ok (-1) ∧
    verb_header_step_parts [("H", "json")] ["h"] 0 = Except.ok 1 ∧
    verb_header_step_parts [("h", "json")] ["h", "json"] 0 = Except.ok 3 ∧
    verb_header_step_parts [("h", "xml")] ["h", "json"] 0 = Except.error 1 := by
  refine ⟨?_, ?_, ?_, ?_, ?_, ?_, ?_⟩
  · simpa using (c5_verb_predicate_weights.2.2.1 [("q", "x")] "q" 0).1 rfl
  · simpa using
      ((c5_verb_predicate_weights.2.2.2.1 [("q", "x")] "q" "x" 0 (by decide)).1 rfl)
  · simpa using
      ((c5_verb_predicate_weights.2.2.2.1 [("q", "y")] "q" "x" 0 (by decide)).2.1
        "y" rfl (by decide))
  · simpa using
      ((c5_verb_predicate_weights.2.2.2.1 [] "q" "x" 0 (by decide)).2.2 rfl)
  · simpa using (c5_verb_predicate_weights.2.2.2.2.1 [("H", "json")] "h" 0).1 rfl
  · simpa using
      ((c5_verb_predicate_weights.2.2.2.2.2.1 [("h", "json")] "h" "json" 0
        "json" rfl rfl).1 (by decide) (by decide))
  · simpa using
      ((c5_verb_predicate_weights.2.2.2.2.2.1 [("h", "xml")] "h" "json" 0
        "xml" rfl rfl).2 (by decide) (Or.inr (by decide)))

end Vapi
